import Mathlib

/-
  Verification of the quokka (TwoMomentRad) radiation-hydrodynamics code.

  Shallow embedding of the per-cell kernels of
    src/radiation_system.hpp   (RadSystem)
    src/hyperbolic_system.hpp  (HyperbolicSystem)
    src/ShockCloud/cloud.cpp   (HydroSystem<ShockCloud>::EnforcePressureFloor)
  over exact arithmetic: kernels that use only field operations are embedded
  over ℚ (executable), kernels that use std::sqrt are embedded over ℝ with
  Real.sqrt.  Fatal assertions (AMREX_ALWAYS_ASSERT) are modelled by an
  Option result, with none standing for program abort.
-/

namespace Quokka

/-- Conserved-variable state of one cell, mirroring the consVarIndex enum of
RadSystem (gasDensity, x1..x3 GasMomentum, gasEnergy, radEnergy, x1..x3 RadFlux). -/
structure RadState (α : Type) where
  gasDensity : α
  x1GasMomentum : α
  x2GasMomentum : α
  x3GasMomentum : α
  gasEnergy : α
  radEnergy : α
  x1RadFlux : α
  x2RadFlux : α
  x3RadFlux : α
deriving DecidableEq

/-- Problem-dependent constants and opacity laws, mirroring RadSystem_Traits
and the ComputeOpacity / ComputeOpacityTempDerivative static members that user
applications may specialize. -/
structure RadProblem (α : Type) where
  c_light : α
  c_hat : α
  radiation_constant : α
  mean_molecular_mass : α
  boltzmann_constant : α
  gamma : α
  kappaFn : α → α → α
  dkappaFn : α → α → α

variable {α : Type} [LinearOrderedField α]

/-- RadSystem::ComputeTgasFromEgas. -/
def ComputeTgasFromEgas (P : RadProblem α) (rho Egas : α) : α :=
  let c_v := P.boltzmann_constant / (P.mean_molecular_mass * (P.gamma - 1))
  Egas / (rho * c_v)

/-- RadSystem::ComputeEgasTempDerivative. -/
def ComputeEgasTempDerivative (P : RadProblem α) (rho : α) : α :=
  let c_v := P.boltzmann_constant / (P.mean_molecular_mass * (P.gamma - 1))
  rho * c_v

/-- RadSystem::ComputeEintFromEgas. -/
def ComputeEintFromEgas (density X1GasMom X2GasMom X3GasMom Etot : α) : α :=
  let p_sq := X1GasMom * X1GasMom + X2GasMom * X2GasMom + X3GasMom * X3GasMom
  let Ekin := p_sq / (2 * density)
  Etot - Ekin

/-- RadSystem::ComputeEgasFromEint. -/
def ComputeEgasFromEint (density X1GasMom X2GasMom X3GasMom Eint : α) : α :=
  let p_sq := X1GasMom * X1GasMom + X2GasMom * X2GasMom + X3GasMom * X3GasMom
  let Ekin := p_sq / (2 * density)
  Eint + Ekin

/-- Residual tolerance resid_tol = 1e-10 of the Newton-Raphson loop in
RadSystem::AddSourceTerms. -/
def resid_tol : ℚ := 1 / 10 ^ 10

/-- Iteration cap maxIter = 200 of the Newton-Raphson loop. -/
def maxIter : ℕ := 200

/-- Outcome of the Newton-Raphson loop of RadSystem::AddSourceTerms: the final
iterates Egas_guess and Erad_guess, the values the C++ locals kappa, F_G, F_R
hold when the loop exits, and the number of Newton updates performed. -/
structure NewtonResult where
  Egas : ℚ
  Erad : ℚ
  kappa : ℚ
  F_G : ℚ
  F_R : ℚ
  iters : ℕ
deriving DecidableEq

/-- Convergence test of the Newton-Raphson loop:
abs (F_G / Etot0) < resid_tol and abs (F_R / Etot0) < resid_tol. -/
def residOk (Etot0 F_G F_R : ℚ) : Prop :=
  |F_G / Etot0| < resid_tol ∧ |F_R / Etot0| < resid_tol

instance (Etot0 F_G F_R : ℚ) : Decidable (residOk Etot0 F_G F_R) :=
  inferInstanceAs (Decidable (And _ _))

/-- Data produced by the body of one Newton iteration of
RadSystem::AddSourceTerms: the opacity and residuals computed from the current
iterates Egas_guess, Erad_guess, and the updated iterates that the Newton step
would produce (in C++ the step is skipped when the convergence test passes;
the loop below likewise discards Egas1, Erad1 in that case). -/
structure NewtonIter where
  kappa : ℚ
  F_G : ℚ
  F_R : ℚ
  Egas1 : ℚ
  Erad1 : ℚ
deriving DecidableEq

/-- Body of one Newton iteration of RadSystem::AddSourceTerms (lines 800-855),
from the current iterates Egas_guess, Erad_guess. -/
def newtonIterate (P : RadProblem ℚ) (rho Egas0 Erad0 Src dt Egas_guess Erad_guess : ℚ) :
    NewtonIter :=
  let c := P.c_light
  let chat := P.c_hat
  let a_rad := P.radiation_constant
  let T_gas := ComputeTgasFromEgas P rho Egas_guess
  let kappa := P.kappaFn rho T_gas
  let fourPiB := chat * a_rad * T_gas ^ 4
  let dB_dTgas := (4 * fourPiB) / T_gas
  let dkappa_dTgas := P.dkappaFn rho T_gas
  let rhs := dt * (rho * kappa) * (fourPiB - chat * Erad_guess)
  let F_G := (Egas_guess - Egas0) + ((c / chat) * rhs)
  let F_R := (Erad_guess - Erad0) - (rhs + Src)
  let c_v := ComputeEgasTempDerivative P rho
  let drhs_dEgas := (rho * dt / c_v) *
    (kappa * dB_dTgas + dkappa_dTgas * (fourPiB - chat * Erad_guess))
  let dFG_dEgas := 1 + (c / chat) * drhs_dEgas
  let dFG_dErad := dt * (-(rho * kappa) * c)
  let dFR_dEgas := -drhs_dEgas
  let dFR_dErad := 1 + dt * ((rho * kappa) * chat)
  let eta := -dFR_dEgas / dFG_dEgas
  let deltaErad := -(F_R + eta * F_G) / (dFR_dErad + eta * dFG_dErad)
  let deltaEgas := -(F_G + dFG_dErad * deltaErad) / dFG_dEgas
  ⟨kappa, F_G, F_R, Egas_guess + deltaEgas, Erad_guess + deltaErad⟩

/-- BEGIN NEWTON-RAPHSON LOOP of RadSystem::AddSourceTerms (lines 800-856).
The loop counter is embedded as fuel; the extra ℚ arguments carry the values
of the C++ locals kappa, F_G, F_R across iterations (in C++ they are function
scoped and initialized to NaN; a NaN fails every comparison, which the seed
values passed by newtonSolve reproduce for the convergence test whenever
Etot0 is nonzero). -/
def newtonLoop (P : RadProblem ℚ) (rho Egas0 Erad0 Etot0 Src dt : ℚ) :
    ℕ → ℚ → ℚ → ℚ → ℚ → ℚ → ℕ → NewtonResult
  | 0, Egas_guess, Erad_guess, kappa, F_G, F_R, iters =>
      ⟨Egas_guess, Erad_guess, kappa, F_G, F_R, iters⟩
  | Nat.succ fuel, Egas_guess, Erad_guess, _, _, _, iters =>
      let it := newtonIterate P rho Egas0 Erad0 Src dt Egas_guess Erad_guess
      if residOk Etot0 it.F_G it.F_R then
        ⟨Egas_guess, Erad_guess, it.kappa, it.F_G, it.F_R, iters⟩
      else
        newtonLoop P rho Egas0 Erad0 Etot0 Src dt fuel
          it.Egas1 it.Erad1 it.kappa it.F_G it.F_R (iters + 1)

/-- The Newton-Raphson solve of RadSystem::AddSourceTerms, started from
Egas_guess = Egas0, Erad_guess = Erad0 with fuel maxIter.  The seed values
Etot0 passed for the C++ NaN-initialized locals F_G, F_R fail the convergence
test whenever Etot0 is nonzero, as NaN does. -/
def newtonSolve (P : RadProblem ℚ) (rho Egas0 Erad0 Src dt : ℚ) : NewtonResult :=
  let Etot0 := Egas0 + (P.c_light / P.c_hat) * Erad0
  newtonLoop P rho Egas0 Erad0 Etot0 Src dt maxIter Egas0 Erad0 0 Etot0 Etot0 0

/-- Gas internal energy Egas0 of a cell, as computed at the top of the
AddSourceTerms kernel. -/
def cellEgas0 (u : RadState ℚ) : ℚ :=
  ComputeEintFromEgas u.gasDensity u.x1GasMomentum u.x2GasMomentum u.x3GasMomentum
    u.gasEnergy

/-- Etot0 = Egas0 + (c/chat) * Erad0 of a cell. -/
def cellEtot0 (P : RadProblem ℚ) (u : RadState ℚ) : ℚ :=
  cellEgas0 u + (P.c_light / P.c_hat) * u.radEnergy

/-- Source term Src = dt * (chat * radEnergySource + advectionFluxes[0]) of
the AddSourceTerms kernel (constant across Newton iterations). -/
def cellSrc (P : RadProblem ℚ) (radEnergySource : ℚ) (advectionFluxes : Fin 3 → ℚ)
    (dt : ℚ) : ℚ :=
  dt * ((P.c_hat * radEnergySource) + advectionFluxes 0)

/-- The Newton-Raphson solve performed for one cell by AddSourceTerms. -/
def cellNewton (P : RadProblem ℚ) (u : RadState ℚ) (radEnergySource : ℚ)
    (advectionFluxes : Fin 3 → ℚ) (dt : ℚ) : NewtonResult :=
  newtonSolve P u.gasDensity (cellEgas0 u) u.radEnergy
    (cellSrc P radEnergySource advectionFluxes dt) dt

/-- Post-Newton part of the AddSourceTerms kernel (lines 864-904): stores the
new radiation and gas energies, applies the implicit radiation flux update,
the conservative gas momentum update, and the kinetic-energy update, given
the Newton solve outcome r. -/
def sourceUpdatedState (P : RadProblem ℚ) (u : RadState ℚ)
    (advectionFluxes : Fin 3 → ℚ) (dt : ℚ) (r : NewtonResult) : RadState ℚ :=
  let c := P.c_light
  let chat := P.c_hat
  let rho := u.gasDensity
  let x1GasMom0 := u.x1GasMomentum
  let x2GasMom0 := u.x2GasMomentum
  let x3GasMom0 := u.x3GasMomentum
  let vel0 : Fin 3 → ℚ := ![x1GasMom0 / rho, x2GasMom0 / rho, x3GasMom0 / rho]
  let Frad_t0 : Fin 3 → ℚ := ![u.x1RadFlux, u.x2RadFlux, u.x3RadFlux]
  let Frad_t1 : Fin 3 → ℚ := fun n =>
    (Frad_t0 n + dt * advectionFluxes n) / (1 + (rho * r.kappa) * chat * dt)
  let dMomentum : Fin 3 → ℚ := fun n => -(Frad_t1 n - Frad_t0 n) / (c * chat)
  let dEkin := vel0 0 * dMomentum 0 + vel0 1 * dMomentum 1 + vel0 2 * dMomentum 2
  { gasDensity := rho
    x1GasMomentum := x1GasMom0 + dMomentum 0
    x2GasMomentum := x2GasMom0 + dMomentum 1
    x3GasMomentum := x3GasMom0 + dMomentum 2
    gasEnergy :=
      ComputeEgasFromEint rho x1GasMom0 x2GasMom0 x3GasMom0 r.Egas + dEkin
    radEnergy := r.Erad
    x1RadFlux := Frad_t1 0
    x2RadFlux := Frad_t1 1
    x3RadFlux := Frad_t1 2 }

/-- One cell of RadSystem::AddSourceTerms (lines 752-908).  The four
AMREX_ALWAYS_ASSERT statements after the Newton loop are modelled by
returning none (program abort) when any of them fails. -/
def AddSourceTermsCell (P : RadProblem ℚ) (u : RadState ℚ) (radEnergySource : ℚ)
    (advectionFluxes : Fin 3 → ℚ) (dt : ℚ) : Option (RadState ℚ) :=
  let Etot0 := cellEtot0 P u
  let r := cellNewton P u radEnergySource advectionFluxes dt
  if residOk Etot0 r.F_G r.F_R ∧ r.Erad > 0 ∧ r.Egas > 0 then
    some (sourceUpdatedState P u advectionFluxes dt r)
  else
    none

/-- Conserved-variable state of one hydro cell (density_index, x1..x3
Momentum_index, energy_index of HydroSystem). -/
structure HydroState (β : Type) where
  density : β
  x1Momentum : β
  x2Momentum : β
  x3Momentum : β
  energy : β
deriving DecidableEq

/-- Hydrogen mass in CGS units, hydrogen_mass_cgs_ = 1.6726231e-24. -/
def hydrogen_mass_cgs : ℚ := 16726231 / 10 ^ 31

/-- Boltzmann constant in CGS units, boltzmann_constant_cgs_ = 1.380658e-16. -/
def boltzmann_constant_cgs : ℚ := 1380658 / 10 ^ 22

/-- Temperature floor T_floor = 100 K of ShockCloud/cloud.cpp. -/
def T_floor : ℚ := 100

/-- Adiabatic index gamma_ = 5/3 of HydroSystem<ShockCloud>. -/
def gamma_SC : ℚ := 5 / 3

/-- One cell of HydroSystem<ShockCloud>::EnforcePressureFloor
(ShockCloud/cloud.cpp lines 461-495).  The pressureFloor function parameter
is unused by the C++ body and is omitted.  Note the velocities vx1..vx3, and
hence vsq, are computed from the density before floor enforcement. -/
def EnforcePressureFloorCell (densityFloor : ℚ) (s : HydroState ℚ) : HydroState ℚ :=
  let rho_floor := densityFloor
  let rho := s.density
  let vx1 := s.x1Momentum / rho
  let vx2 := s.x2Momentum / rho
  let vx3 := s.x3Momentum / rho
  let vsq := vx1 * vx1 + vx2 * vx2 + vx3 * vx3
  let Etot := s.energy
  let rho_new := if rho < rho_floor then rho_floor else rho
  let P_floor := (rho_new / hydrogen_mass_cgs) * boltzmann_constant_cgs * T_floor
  let Eint_star := Etot - (1 / 2) * rho_new * vsq
  let P_star := Eint_star * (gamma_SC - 1)
  let energy_new :=
    if P_star < P_floor then P_floor / (gamma_SC - 1) + (1 / 2) * rho_new * vsq
    else Etot
  { density := rho_new
    x1Momentum := s.x1Momentum
    x2Momentum := s.x2Momentum
    x3Momentum := s.x3Momentum
    energy := energy_new }

/-- A concrete hydro cell whose density 1 lies below the floor 2 used in the
theorems below, with nonzero x-momentum. -/
def sdemo : HydroState ℚ := ⟨1, 2, 0, 0, 1⟩

/-- Type-safe sign function sgn of hyperbolic_system.hpp line 27. -/
def sgn (x : ℚ) : ℤ :=
  (if (0 : ℚ) < x then 1 else 0) - (if x < 0 then 1 else 0)

/-- Monotonized-central limiter HyperbolicSystem::MC (lines 57-63). -/
def MC (a b : ℚ) : ℚ :=
  (1 / 2 : ℚ) * ((sgn a + sgn b : ℤ) : ℚ) *
    min ((1 / 2) * |a + b|) (min (2 * |a|) (2 * |b|))

/-- std::clamp. -/
def clamp (v lo hi : ℚ) : ℚ := if v < lo then lo else if hi < v then hi else v

/-- Colella-Woodward interface estimate a at the left edge of zone i
(HyperbolicSystem::ReconstructStatesPPM step 1, lines 325-328), with the
terms grouped as in the code. -/
def interfaceCW (q : ℤ → ℚ) (i : ℤ) : ℚ :=
  ((7 / 12) * q i + (-1 / 12) * q (i + 1)) +
    ((7 / 12) * q (i - 1) + (-1 / 12) * q (i - 2))

/-- Minimum of the three cell averages around zone i. -/
def minmax3lo (q : ℤ → ℚ) (i : ℤ) : ℚ := min (q (i - 1)) (min (q i) (q (i + 1)))

/-- Maximum of the three cell averages around zone i. -/
def minmax3hi (q : ℤ → ℚ) (i : ℤ) : ℚ := max (q (i - 1)) (max (q i) (q (i + 1)))

/-- Step 1 of ReconstructStatesPPM (lines 312-336): for i in
[range.first, range.second] set both leftState i and rightState i to the
interface estimate; other entries keep their previous (uninitialized)
values L0, R0.  States are modelled as functions on ℤ; since each loop
iteration writes distinct entries, the loops are expressed pointwise. -/
def ppmPass1 (q L0 R0 : ℤ → ℚ) (first second : ℤ) : (ℤ → ℚ) × (ℤ → ℚ) :=
  (fun i => if first ≤ i ∧ i ≤ second then interfaceCW q i else L0 i,
   fun i => if first ≤ i ∧ i ≤ second then interfaceCW q i else R0 i)

/-- Step 2 of ReconstructStatesPPM (lines 338-361): for each cell i in
[range.first, range.second), clamp a_minus = rightState i and
a_plus = leftState (i+1) to the min/max of the three adjacent cell
averages.  Iteration i writes rightState i and leftState (i+1), each entry
written by exactly one iteration, so the loop is expressed pointwise. -/
def ppmPass2 (q L R : ℤ → ℚ) (first second : ℤ) : (ℤ → ℚ) × (ℤ → ℚ) :=
  (fun i => if first ≤ i - 1 ∧ i - 1 < second then
      clamp (L i) (minmax3lo q (i - 1)) (minmax3hi q (i - 1)) else L i,
   fun i => if first ≤ i ∧ i < second then
      clamp (R i) (minmax3lo q i) (minmax3hi q i) else R i)

/-- Monotonicity correction of ReconstructStatesPPM (lines 363-412) for one
cell i, returning the corrected (new_a_minus, new_a_plus). -/
def ppmMono (q L R : ℤ → ℚ) (i : ℤ) : ℚ × ℚ :=
  let a_minus := R i
  let a_plus := L (i + 1)
  let a := q i
  let dq_minus := a - a_minus
  let dq_plus := a_plus - a
  let qa := dq_plus * dq_minus
  if qa ≤ 0 then
    let dq0 := MC (q (i + 1) - q i) (q i - q (i - 1))
    (a - (1 / 2) * dq0, a + (1 / 2) * dq0)
  else
    (if |dq_minus| ≥ 2 * |dq_plus| then a - 2 * dq_plus else a_minus,
     if |dq_plus| ≥ 2 * |dq_minus| then a + 2 * dq_minus else a_plus)

/-- Step 3 of ReconstructStatesPPM expressed pointwise: iteration i writes
rightState i and leftState (i+1). -/
def ppmPass3 (q L R : ℤ → ℚ) (first second : ℤ) : (ℤ → ℚ) × (ℤ → ℚ) :=
  (fun i => if first ≤ i - 1 ∧ i - 1 < second then (ppmMono q L R (i - 1)).2 else L i,
   fun i => if first ≤ i ∧ i < second then (ppmMono q L R i).1 else R i)

/-- HyperbolicSystem::ReconstructStatesPPM (lines 297-422) for one variable:
the three passes chained, returning (leftState, rightState). -/
def ReconstructStatesPPM (q L0 R0 : ℤ → ℚ) (first second : ℤ) :
    (ℤ → ℚ) × (ℤ → ℚ) :=
  let s1 := ppmPass1 q L0 R0 first second
  let s2 := ppmPass2 q s1.1 s1.2 first second
  ppmPass3 q s2.1 s2.2 first second

/-- A concrete cell-average profile, linear in the cell index. -/
def qdemo : ℤ → ℚ := fun i => (i : ℚ)

/-- Zero-initialized interface-state arrays. -/
def zfun : ℤ → ℚ := fun _ => 0

/-- A concrete RadSystem_Traits instantiation with simple rational constants
(c = chat = 2, a_rad = 1, mu = 1, k_B = 1, gamma = 2) and the base-template
opacity ComputeOpacity = 1, ComputeOpacityTempDerivative = 0, used to
exercise the kernels on concrete inputs. -/
def Pdemo : RadProblem ℚ := ⟨2, 2, 1, 1, 1, 2, fun _ _ => 1, fun _ _ => 0⟩

/-- A concrete cell state: unit density, zero momentum, unit gas and
radiation energy, zero radiation flux. -/
def udemo : RadState ℚ := ⟨1, 0, 0, 0, 1, 1, 0, 0, 0⟩

/-- Zero advection fluxes. -/
def zeroAdv : Fin 3 → ℚ := fun _ => 0

/-- std::clamp over the reals (used by ComputeEddingtonFactor). -/
noncomputable def clampR (v lo hi : ℝ) : ℝ := if v < lo then lo else if hi < v then hi else v

/-- RadSystem::ComputeEddingtonFactor (radiation_system.hpp lines 325-343):
the Levermore (1984) M1 closure with the reduced flux clamped to [0, 1]. -/
noncomputable def ComputeEddingtonFactor (f_in : ℝ) : ℝ :=
  let f := clampR f_in 0 1
  let f_fac := Real.sqrt (4 - 3 * (f * f))
  (3 + 4 * (f * f)) / (5 + 2 * f_fac)

/-- Norm of the reduced-flux vector, sqrt (fx*fx + fy*fy + fz*fz). -/
noncomputable def fluxNorm (fx fy fz : ℝ) : ℝ := Real.sqrt (fx * fx + fy * fy + fz * fz)

/-- Unit direction of the radiation flux (ComputeFluxes lines 492-498):
component k of the flux vector divided by its norm, or 0 when the norm is
not positive. -/
noncomputable def nvec (fx fy fz : ℝ) (k : Fin 3) : ℝ :=
  if fluxNorm fx fy fz > 0 then (![fx, fy, fz]) k / fluxNorm fx fy fz else 0

/-- Face-normal component T[d][d] of the Eddington tensor
T[i][j] = Tdiag * delta_ij + Tf * n_i * n_j (ComputeFluxes lines 500-547),
built from the reduced-flux components of one side. -/
noncomputable def Tnormal (fx fy fz : ℝ) (d : Fin 3) : ℝ :=
  let chi := ComputeEddingtonFactor (fluxNorm fx fy fz)
  let Tdiag := (1 - chi) / 2
  let Tf := (3 * chi - 1) / 2
  Tdiag + Tf * (nvec fx fy fz d * nvec fx fy fz d)

/-- Left HLL wave speed S_L = min(-0.1 chat, -chat * sqrt Tnormal_L)
(ComputeFluxes line 637). -/
noncomputable def S_L_of (chat TnL : ℝ) : ℝ :=
  min (-0.1 * chat) (-chat * Real.sqrt TnL)

/-- Right HLL wave speed S_R = max(0.1 chat, chat * sqrt Tnormal_R)
(ComputeFluxes line 638). -/
noncomputable def S_R_of (chat TnR : ℝ) : ℝ :=
  max (0.1 * chat) (chat * Real.sqrt TnR)

/-- Interface state variables gathered by ComputeFluxes (lines 424-478):
radiation energies, un-reduced and reduced flux components and reduced-flux
magnitudes on both sides of a face. -/
structure FaceVars where
  erad_L : ℝ
  erad_R : ℝ
  Fx_L : ℝ
  Fx_R : ℝ
  Fy_L : ℝ
  Fy_R : ℝ
  Fz_L : ℝ
  Fz_R : ℝ
  fx_L : ℝ
  fx_R : ℝ
  fy_L : ℝ
  fy_R : ℝ
  fz_L : ℝ
  fz_R : ℝ
  f_L : ℝ
  f_R : ℝ

/-- State gathering of ComputeFluxes (lines 424-478): start from the
reconstructed interface primitives of x1LeftState / x1RightState; if the pair
is not physically admissible (erad_L > 0 and erad_R > 0 and f_L < 1 and
f_R < 1 fails), silently fall back to piecewise-constant values from the two
adjacent cell-centered conserved states cL (zone i-1) and cR (zone i), with
reduced fluxes re-derived by dividing by c * E_r. -/
noncomputable def gatherFaceStates (c : ℝ)
    (eradL0 fxL0 fyL0 fzL0 eradR0 fxR0 fyR0 fzR0 : ℝ)
    (cL cR : RadState ℝ) : FaceVars :=
  let f_L := fluxNorm fxL0 fyL0 fzL0
  let f_R := fluxNorm fxR0 fyR0 fzR0
  if ¬((eradL0 > 0) ∧ (eradR0 > 0) ∧ (f_L < 1) ∧ (f_R < 1)) then
    { erad_L := cL.radEnergy
      erad_R := cR.radEnergy
      Fx_L := cL.x1RadFlux
      Fx_R := cR.x1RadFlux
      Fy_L := cL.x2RadFlux
      Fy_R := cR.x2RadFlux
      Fz_L := cL.x3RadFlux
      Fz_R := cR.x3RadFlux
      fx_L := cL.x1RadFlux / (c * cL.radEnergy)
      fx_R := cR.x1RadFlux / (c * cR.radEnergy)
      fy_L := cL.x2RadFlux / (c * cL.radEnergy)
      fy_R := cR.x2RadFlux / (c * cR.radEnergy)
      fz_L := cL.x3RadFlux / (c * cL.radEnergy)
      fz_R := cR.x3RadFlux / (c * cR.radEnergy)
      f_L := fluxNorm (cL.x1RadFlux / (c * cL.radEnergy))
        (cL.x2RadFlux / (c * cL.radEnergy)) (cL.x3RadFlux / (c * cL.radEnergy))
      f_R := fluxNorm (cR.x1RadFlux / (c * cR.radEnergy))
        (cR.x2RadFlux / (c * cR.radEnergy)) (cR.x3RadFlux / (c * cR.radEnergy)) }
  else
    { erad_L := eradL0
      erad_R := eradR0
      Fx_L := fxL0 * (c * eradL0)
      Fx_R := fxR0 * (c * eradR0)
      Fy_L := fyL0 * (c * eradL0)
      Fy_R := fyR0 * (c * eradR0)
      Fz_L := fzL0 * (c * eradL0)
      Fz_R := fzR0 * (c * eradR0)
      fx_L := fxL0
      fx_R := fxR0
      fy_L := fyL0
      fy_R := fyR0
      fz_L := fzL0
      fz_R := fzR0
      f_L := f_L
      f_R := f_R }

/-- RadSystem::ComputeCellOpticalDepth (lines 345-395): one-sided optical
depths tau = dl * rho * kappa(rho, Tgas) from piecewise-constant
reconstruction of the two adjacent cells, combined by a harmonic mean. -/
noncomputable def ComputeCellOpticalDepth (P : RadProblem ℝ) (cL cR : RadState ℝ)
    (dl : ℝ) : ℝ :=
  let rho_L := cL.gasDensity
  let rho_R := cR.gasDensity
  let Eint_L := ComputeEintFromEgas rho_L cL.x1GasMomentum cL.x2GasMomentum
    cL.x3GasMomentum cL.gasEnergy
  let Eint_R := ComputeEintFromEgas rho_R cR.x1GasMomentum cR.x2GasMomentum
    cR.x3GasMomentum cR.gasEnergy
  let Tgas_L := ComputeTgasFromEgas P rho_L Eint_L
  let Tgas_R := ComputeTgasFromEgas P rho_R Eint_R
  let tau_L := dl * rho_L * P.kappaFn rho_L Tgas_L
  let tau_R := dl * rho_R * P.kappaFn rho_R Tgas_R
  (2 * tau_L * tau_R) / (tau_L + tau_R)

/-- Asymptotic-preserving correction factor S_corr = min(1, 1/tau)
(ComputeFluxes line 626). -/
noncomputable def S_corr_of (tau : ℝ) : ℝ := min 1 (1 / tau)

/-- Wave-speed adjustment vector epsilon = (S_corr^2, S_corr, S_corr, S_corr)
(ComputeFluxes lines 633-634). -/
noncomputable def epsilonVec (S_corr : ℝ) : Fin 4 → ℝ :=
  ![S_corr * S_corr, S_corr, S_corr, S_corr]

/-- HLL flux with component-wise adjustment eps of the (S_R S_L / (S_R - S_L))
(U_R - U_L) term (ComputeFluxes lines 645-647 and 660-662). -/
noncomputable def hllFlux (S_L S_R : ℝ) (F_L F_R U_L U_R eps : Fin 4 → ℝ) :
    Fin 4 → ℝ := fun n =>
  (S_R / (S_R - S_L)) * F_L n - (S_L / (S_R - S_L)) * F_R n +
    eps n * (S_R * S_L / (S_R - S_L)) * (U_R n - U_L n)

/-- Primary (asymptotic-preserving) and diffusive fluxes of one face
(ComputeFluxes lines 617-667): the primary flux uses epsilon built from
S_corr = min(1, 1/tau), the diffusive flux uses epsilon = (1,1,1,1). -/
noncomputable def faceFluxes (chat Tn_L Tn_R : ℝ) (F_L F_R U_L U_R : Fin 4 → ℝ)
    (tau : ℝ) : (Fin 4 → ℝ) × (Fin 4 → ℝ) :=
  let epsilon := epsilonVec (S_corr_of tau)
  let S_L := S_L_of chat Tn_L
  let S_R := S_R_of chat Tn_R
  (hllFlux S_L S_R F_L F_R U_L U_R epsilon,
   hllFlux S_L S_R F_L F_R U_L U_R (fun _ => 1))

/-- The demo trait constants over the reals (c = chat = 2, base-template
opacity 1). -/
noncomputable def Prdemo : RadProblem ℝ := ⟨2, 2, 1, 1, 1, 2, fun _ _ => 1, fun _ _ => 0⟩

/-- The demo cell state over the reals. -/
noncomputable def urdemo : RadState ℝ := ⟨1, 0, 0, 0, 1, 1, 0, 0, 0⟩

/-- Number of hyperbolic radiation variables nvarHyperbolic_ = 4 of
RadSystem: the per-cell state array of PredictStep and isStateValid has this
length. -/
def nvarHyperbolic : ℕ := 4

/-- consVarIndex value radEnergy_index = 5 used by isStateValid. -/
def radEnergy_index : ℕ := 5

/-- consVarIndex value x1RadFlux_index = 6 used by isStateValid. -/
def x1RadFlux_index : ℕ := 6

/-- consVarIndex value x2RadFlux_index = 7 used by isStateValid. -/
def x2RadFlux_index : ℕ := 7

/-- consVarIndex value x3RadFlux_index = 8 used by isStateValid. -/
def x3RadFlux_index : ℕ := 8

/-- The Newton loop performs at most fuel further iterations. -/
theorem newtonLoop_iters_le (P : RadProblem ℚ) (rho Egas0 Erad0 Etot0 Src dt : ℚ) :
    ∀ (fuel : ℕ) (Eg Er k FG FR : ℚ) (iters : ℕ),
      (newtonLoop P rho Egas0 Erad0 Etot0 Src dt fuel Eg Er k FG FR iters).iters ≤
        iters + fuel := by
  intro fuel
  induction fuel with
  | zero => intro Eg Er k FG FR iters; simp [newtonLoop]
  | succ fuel ih =>
      intro Eg Er k FG FR iters
      rw [newtonLoop]
      split
      · simp
      · exact le_trans (ih _ _ _ _ _ _) (by omega)

/-- When the loop exits with the convergence test satisfied, the returned
kappa, F_G, F_R are those computed from the returned iterates (provided the
seed values fail the convergence test, as the C++ NaN seeds do). -/
theorem newtonLoop_coherent (P : RadProblem ℚ) (rho Egas0 Erad0 Etot0 Src dt : ℚ) :
    ∀ (fuel : ℕ) (Eg Er k FG FR : ℚ) (iters : ℕ),
      ¬ residOk Etot0 FG FR →
      residOk Etot0 (newtonLoop P rho Egas0 Erad0 Etot0 Src dt fuel Eg Er k FG FR iters).F_G
        (newtonLoop P rho Egas0 Erad0 Etot0 Src dt fuel Eg Er k FG FR iters).F_R →
      ((newtonLoop P rho Egas0 Erad0 Etot0 Src dt fuel Eg Er k FG FR iters).kappa,
       (newtonLoop P rho Egas0 Erad0 Etot0 Src dt fuel Eg Er k FG FR iters).F_G,
       (newtonLoop P rho Egas0 Erad0 Etot0 Src dt fuel Eg Er k FG FR iters).F_R) =
        (let it := newtonIterate P rho Egas0 Erad0 Src dt
          (newtonLoop P rho Egas0 Erad0 Etot0 Src dt fuel Eg Er k FG FR iters).Egas
          (newtonLoop P rho Egas0 Erad0 Etot0 Src dt fuel Eg Er k FG FR iters).Erad
        (it.kappa, it.F_G, it.F_R)) := by
  intro fuel
  induction fuel with
  | zero =>
      intro Eg Er k FG FR iters hseed hok
      exact absurd hok hseed
  | succ fuel ih =>
      intro Eg Er k FG FR iters hseed
      rw [newtonLoop]
      split
      · intro _
        rfl
      · intro hok
        exact ih _ _ _ _ _ _ (by assumption) hok

/-- If the loop exhausts its fuel (never breaking), the returned F_G, F_R
fail the convergence test (given that the seed values do). -/
theorem newtonLoop_exhaust (P : RadProblem ℚ) (rho Egas0 Erad0 Etot0 Src dt : ℚ) :
    ∀ (fuel : ℕ) (Eg Er k FG FR : ℚ) (iters : ℕ),
      ¬ residOk Etot0 FG FR →
      (newtonLoop P rho Egas0 Erad0 Etot0 Src dt fuel Eg Er k FG FR iters).iters =
        iters + fuel →
      ¬ residOk Etot0 (newtonLoop P rho Egas0 Erad0 Etot0 Src dt fuel Eg Er k FG FR iters).F_G
        (newtonLoop P rho Egas0 Erad0 Etot0 Src dt fuel Eg Er k FG FR iters).F_R := by
  intro fuel
  induction fuel with
  | zero =>
      intro Eg Er k FG FR iters hseed _
      exact hseed
  | succ fuel ih =>
      intro Eg Er k FG FR iters hseed
      rw [newtonLoop]
      split
      · intro hiters
        exact absurd hiters (by simp)
      · intro hiters
        exact ih _ _ _ _ _ _ (by assumption) (by omega)

/-- If the initial guess already satisfies the tolerance, the loop exits
after zero Newton updates with the guesses unchanged. -/
theorem newtonLoop_zero_exit (P : RadProblem ℚ) (rho Egas0 Erad0 Etot0 Src dt : ℚ)
    (fuel : ℕ) (Eg Er k FG FR : ℚ) (iters : ℕ)
    (h : residOk Etot0 (newtonIterate P rho Egas0 Erad0 Src dt Eg Er).F_G
      (newtonIterate P rho Egas0 Erad0 Src dt Eg Er).F_R) (hfuel : fuel ≠ 0) :
    newtonLoop P rho Egas0 Erad0 Etot0 Src dt fuel Eg Er k FG FR iters =
      ⟨Eg, Er, (newtonIterate P rho Egas0 Erad0 Src dt Eg Er).kappa,
        (newtonIterate P rho Egas0 Erad0 Src dt Eg Er).F_G,
        (newtonIterate P rho Egas0 Erad0 Src dt Eg Er).F_R, iters⟩ := by
  cases fuel with
  | zero => exact absurd rfl hfuel
  | succ fuel =>
      rw [newtonLoop]
      split
      · rfl
      · exact absurd h (by assumption)

/-- Opacity returned by one Newton iteration, unfolded. -/
theorem newtonIterate_kappa (P : RadProblem ℚ) (rho Egas0 Erad0 Src dt Eg Er : ℚ) :
    (newtonIterate P rho Egas0 Erad0 Src dt Eg Er).kappa =
      P.kappaFn rho (ComputeTgasFromEgas P rho Eg) := rfl

/-- Gas-energy residual F_G of one Newton iteration, unfolded. -/
theorem newtonIterate_F_G (P : RadProblem ℚ) (rho Egas0 Erad0 Src dt Eg Er : ℚ) :
    (newtonIterate P rho Egas0 Erad0 Src dt Eg Er).F_G =
      (Eg - Egas0) + (P.c_light / P.c_hat) *
        (dt * (rho * P.kappaFn rho (ComputeTgasFromEgas P rho Eg)) *
          (P.c_hat * P.radiation_constant * (ComputeTgasFromEgas P rho Eg) ^ 4 -
            P.c_hat * Er)) := rfl

/-- Radiation-energy residual F_R of one Newton iteration, unfolded. -/
theorem newtonIterate_F_R (P : RadProblem ℚ) (rho Egas0 Erad0 Src dt Eg Er : ℚ) :
    (newtonIterate P rho Egas0 Erad0 Src dt Eg Er).F_R =
      (Er - Erad0) -
        ((dt * (rho * P.kappaFn rho (ComputeTgasFromEgas P rho Eg)) *
          (P.c_hat * P.radiation_constant * (ComputeTgasFromEgas P rho Eg) ^ 4 -
            P.c_hat * Er)) + Src) := rfl

/-- The seed residual values passed by newtonSolve fail the convergence test
whenever Etot0 is nonzero (they model the C++ NaN initializers, which fail
every comparison). -/
theorem seed_not_residOk (Etot0 : ℚ) (hE : Etot0 ≠ 0) : ¬ residOk Etot0 Etot0 Etot0 := by
  intro h
  have h1 := h.1
  rw [div_self hE, abs_one] at h1
  norm_num [resid_tol] at h1

/-- The cellNewton solve is the Newton loop started at the cell's initial
data with fuel maxIter. -/
theorem cellNewton_eq (P : RadProblem ℚ) (u : RadState ℚ) (radSrc : ℚ)
    (advF : Fin 3 → ℚ) (dt : ℚ) :
    cellNewton P u radSrc advF dt =
      newtonLoop P u.gasDensity (cellEgas0 u) u.radEnergy (cellEtot0 P u)
        (cellSrc P radSrc advF dt) dt maxIter (cellEgas0 u) u.radEnergy 0
        (cellEtot0 P u) (cellEtot0 P u) 0 := rfl

/-- When cellNewton exits with the convergence test satisfied, its kappa, F_G
and F_R are the ones computed from the final iterates. -/
theorem cellNewton_coherent (P : RadProblem ℚ) (u : RadState ℚ) (radSrc : ℚ)
    (advF : Fin 3 → ℚ) (dt : ℚ) (hE : cellEtot0 P u ≠ 0)
    (hok : residOk (cellEtot0 P u) (cellNewton P u radSrc advF dt).F_G
      (cellNewton P u radSrc advF dt).F_R) :
    ((cellNewton P u radSrc advF dt).kappa,
     (cellNewton P u radSrc advF dt).F_G,
     (cellNewton P u radSrc advF dt).F_R) =
      (let it := newtonIterate P u.gasDensity (cellEgas0 u) u.radEnergy
        (cellSrc P radSrc advF dt) dt
        (cellNewton P u radSrc advF dt).Egas (cellNewton P u radSrc advF dt).Erad
      (it.kappa, it.F_G, it.F_R)) := by
  rw [cellNewton_eq] at hok ⊢
  exact newtonLoop_coherent P u.gasDensity (cellEgas0 u) u.radEnergy (cellEtot0 P u)
    (cellSrc P radSrc advF dt) dt maxIter (cellEgas0 u) u.radEnergy 0
    (cellEtot0 P u) (cellEtot0 P u) 0 (seed_not_residOk _ hE) hok

/-- Inversion of the assert gate of AddSourceTermsCell: a some result means
all four AMREX_ALWAYS_ASSERT conditions held, and describes the stored state. -/
theorem AddSourceTermsCell_some (P : RadProblem ℚ) (u : RadState ℚ) (radSrc : ℚ)
    (advF : Fin 3 → ℚ) (dt : ℚ) (st : RadState ℚ)
    (h : AddSourceTermsCell P u radSrc advF dt = some st) :
    (residOk (cellEtot0 P u) (cellNewton P u radSrc advF dt).F_G
        (cellNewton P u radSrc advF dt).F_R ∧
      (cellNewton P u radSrc advF dt).Erad > 0 ∧
      (cellNewton P u radSrc advF dt).Egas > 0) ∧
    st = sourceUpdatedState P u advF dt (cellNewton P u radSrc advF dt) := by
  rw [AddSourceTermsCell] at h
  split at h
  · exact ⟨by assumption, (Option.some.injEq _ _ ▸ h).symm⟩
  · exact absurd h (by simp)

/-- Evaluation of the Newton solve on the demo cell with dt = 0: the initial
guess already satisfies the tolerance, so the loop exits at iteration 0. -/
theorem cellNewton_demo : cellNewton Pdemo udemo 0 zeroAdv 0 = ⟨1, 1, 1, 0, 0, 0⟩ := by
  norm_num [cellNewton, cellSrc, cellEgas0, ComputeEintFromEgas, udemo, Pdemo,
    newtonSolve, zeroAdv]
  rw [newtonLoop_zero_exit]
  · norm_num [newtonIterate, ComputeTgasFromEgas, ComputeEgasTempDerivative]
  · norm_num [newtonIterate, ComputeTgasFromEgas, ComputeEgasTempDerivative,
      residOk, resid_tol]
  · norm_num [maxIter]

/-- Evaluation of AddSourceTermsCell on the demo cell with dt = 0: the cell
is returned unchanged. -/
theorem AddSourceTermsCell_demo :
    AddSourceTermsCell Pdemo udemo 0 zeroAdv 0 = some udemo := by
  rw [AddSourceTermsCell]
  rw [show cellNewton Pdemo udemo 0 zeroAdv 0 = ⟨1, 1, 1, 0, 0, 0⟩ from cellNewton_demo]
  norm_num [residOk, resid_tol, cellEtot0, cellEgas0, ComputeEintFromEgas,
    ComputeEgasFromEint, sourceUpdatedState, udemo, Pdemo, zeroAdv]

/-- C1: in RadSystem::AddSourceTerms, for every cell whose Newton iteration
converges (the AMREX_ALWAYS_ASSERT gate passes, so the update is stored) and
whose external radiation-energy source and advection-flux inputs are zero
(so Src = 0), the converged gas internal energy and radiation energy satisfy
Egas_new + (c/chat) * Erad_new = Egas0 + (c/chat) * Erad0 to within twice the
residual tolerance 1e-10 scaled by Etot0 = Egas0 + (c/chat) * Erad0.  The
hypothesis c_light = c_hat mirrors every RadSystem_Traits instantiation in
the repository (the default traits and both test specializations set
c_hat = c_light). -/
theorem addSourceTerms_energy_conserved (P : RadProblem ℚ) (u : RadState ℚ)
    (radSrc : ℚ) (advF : Fin 3 → ℚ) (dt : ℚ) (st : RadState ℚ)
    (hcc : P.c_light = P.c_hat) (hchat : 0 < P.c_hat)
    (hEgas : 0 < cellEgas0 u) (hErad : 0 < u.radEnergy)
    (hsrc : radSrc = 0) (hadv : advF 0 = 0)
    (hsome : AddSourceTermsCell P u radSrc advF dt = some st) :
    |(cellNewton P u radSrc advF dt).Egas +
        (P.c_light / P.c_hat) * (cellNewton P u radSrc advF dt).Erad -
        cellEtot0 P u| < 2 * resid_tol * cellEtot0 P u := by
  have hratio : P.c_light / P.c_hat = 1 := by
    rw [hcc]; exact div_self (ne_of_gt hchat)
  have hEtot_pos : 0 < cellEtot0 P u := by
    rw [cellEtot0, hratio]; linarith
  have hE : cellEtot0 P u ≠ 0 := ne_of_gt hEtot_pos
  obtain ⟨⟨hok, _, _⟩, _⟩ := AddSourceTermsCell_some P u radSrc advF dt st hsome
  have hco := cellNewton_coherent P u radSrc advF dt hE hok
  have hFG : (cellNewton P u radSrc advF dt).F_G =
      (newtonIterate P u.gasDensity (cellEgas0 u) u.radEnergy
        (cellSrc P radSrc advF dt) dt (cellNewton P u radSrc advF dt).Egas
        (cellNewton P u radSrc advF dt).Erad).F_G := by
    simpa using congrArg (fun p => p.2.1) hco
  have hFR : (cellNewton P u radSrc advF dt).F_R =
      (newtonIterate P u.gasDensity (cellEgas0 u) u.radEnergy
        (cellSrc P radSrc advF dt) dt (cellNewton P u radSrc advF dt).Egas
        (cellNewton P u radSrc advF dt).Erad).F_R := by
    simpa using congrArg (fun p => p.2.2) hco
  have hS : cellSrc P radSrc advF dt = 0 := by
    simp [cellSrc, hsrc, hadv]
  have hkey : (cellNewton P u radSrc advF dt).Egas +
      (P.c_light / P.c_hat) * (cellNewton P u radSrc advF dt).Erad -
      cellEtot0 P u =
      (cellNewton P u radSrc advF dt).F_G +
        (P.c_light / P.c_hat) * (cellNewton P u radSrc advF dt).F_R := by
    rw [hFG, hFR, newtonIterate_F_G, newtonIterate_F_R, hS, cellEtot0]
    ring
  have h1 : |(cellNewton P u radSrc advF dt).F_G| < resid_tol * cellEtot0 P u := by
    have h := hok.1
    rwa [abs_div, abs_of_pos hEtot_pos, div_lt_iff₀ hEtot_pos] at h
  have h2 : |(cellNewton P u radSrc advF dt).F_R| < resid_tol * cellEtot0 P u := by
    have h := hok.2
    rwa [abs_div, abs_of_pos hEtot_pos, div_lt_iff₀ hEtot_pos] at h
  rw [hkey, hratio, one_mul]
  have habs := abs_add (cellNewton P u radSrc advF dt).F_G
    (cellNewton P u radSrc advF dt).F_R
  linarith

/-- Witness for C1 at the demo cell with dt = 0. -/
theorem addSourceTerms_energy_conserved_witness :
    Pdemo.c_light = Pdemo.c_hat ∧ 0 < Pdemo.c_hat ∧
    0 < cellEgas0 udemo ∧ 0 < udemo.radEnergy ∧ zeroAdv 0 = 0 ∧
    AddSourceTermsCell Pdemo udemo 0 zeroAdv 0 = some udemo ∧
    |(cellNewton Pdemo udemo 0 zeroAdv 0).Egas +
        (Pdemo.c_light / Pdemo.c_hat) * (cellNewton Pdemo udemo 0 zeroAdv 0).Erad -
        cellEtot0 Pdemo udemo| < 2 * resid_tol * cellEtot0 Pdemo udemo :=
  ⟨rfl, by norm_num [Pdemo],
    by norm_num [cellEgas0, ComputeEintFromEgas, udemo],
    by norm_num [udemo], rfl, AddSourceTermsCell_demo,
    addSourceTerms_energy_conserved Pdemo udemo 0 zeroAdv 0 udemo rfl
      (by norm_num [Pdemo])
      (by norm_num [cellEgas0, ComputeEintFromEgas, udemo])
      (by norm_num [udemo]) rfl rfl AddSourceTermsCell_demo⟩

/-- C2: the Newton-Raphson loop of RadSystem::AddSourceTerms tests
convergence each iteration before computing the Newton step, so if the
initial guess already satisfies the tolerance the loop exits after zero
iterations with the guesses unchanged; it performs at most 200 iterations; a
stored (some) result implies both residual bounds and the positivity
postconditions Erad_guess > 0 and Egas_guess > 0 hold; and if the loop
exhausts the iteration cap without converging, the fatal
AMREX_ALWAYS_ASSERT fires (the result is none, i.e. program abort), rather
than an under-converged solve being accepted. -/
theorem addSourceTerms_newton_control (P : RadProblem ℚ) (u : RadState ℚ)
    (radSrc : ℚ) (advF : Fin 3 → ℚ) (dt : ℚ)
    (hE : cellEtot0 P u ≠ 0) :
    (cellNewton P u radSrc advF dt).iters ≤ 200 ∧
    (residOk (cellEtot0 P u)
        (newtonIterate P u.gasDensity (cellEgas0 u) u.radEnergy
          (cellSrc P radSrc advF dt) dt (cellEgas0 u) u.radEnergy).F_G
        (newtonIterate P u.gasDensity (cellEgas0 u) u.radEnergy
          (cellSrc P radSrc advF dt) dt (cellEgas0 u) u.radEnergy).F_R →
      (cellNewton P u radSrc advF dt).iters = 0 ∧
      (cellNewton P u radSrc advF dt).Egas = cellEgas0 u ∧
      (cellNewton P u radSrc advF dt).Erad = u.radEnergy) ∧
    (∀ st : RadState ℚ, AddSourceTermsCell P u radSrc advF dt = some st →
      residOk (cellEtot0 P u) (cellNewton P u radSrc advF dt).F_G
        (cellNewton P u radSrc advF dt).F_R ∧
      (cellNewton P u radSrc advF dt).Erad > 0 ∧
      (cellNewton P u radSrc advF dt).Egas > 0) ∧
    ((cellNewton P u radSrc advF dt).iters = 200 →
      AddSourceTermsCell P u radSrc advF dt = none) := by
  refine ⟨?_, ?_, ?_, ?_⟩
  · rw [cellNewton_eq]
    exact newtonLoop_iters_le P u.gasDensity (cellEgas0 u) u.radEnergy
      (cellEtot0 P u) (cellSrc P radSrc advF dt) dt maxIter (cellEgas0 u)
      u.radEnergy 0 (cellEtot0 P u) (cellEtot0 P u) 0
  · intro h
    rw [cellNewton_eq, newtonLoop_zero_exit P u.gasDensity (cellEgas0 u)
      u.radEnergy (cellEtot0 P u) (cellSrc P radSrc advF dt) dt maxIter
      (cellEgas0 u) u.radEnergy 0 (cellEtot0 P u) (cellEtot0 P u) 0 h
      (by norm_num [maxIter])]
    exact ⟨rfl, rfl, rfl⟩
  · intro st hst
    exact (AddSourceTermsCell_some P u radSrc advF dt st hst).1
  · intro hiters
    rw [AddSourceTermsCell]
    split
    · rename_i hgate
      exact absurd hgate.1
        (newtonLoop_exhaust P u.gasDensity (cellEgas0 u) u.radEnergy
          (cellEtot0 P u) (cellSrc P radSrc advF dt) dt maxIter (cellEgas0 u)
          u.radEnergy 0 (cellEtot0 P u) (cellEtot0 P u) 0
          (seed_not_residOk _ hE) hiters)
    · rfl

/-- Witness for C2 at the demo cell with dt = 0. -/
theorem addSourceTerms_newton_control_witness :
    cellEtot0 Pdemo udemo ≠ 0 ∧
    ((cellNewton Pdemo udemo 0 zeroAdv 0).iters ≤ 200 ∧
      (residOk (cellEtot0 Pdemo udemo)
          (newtonIterate Pdemo udemo.gasDensity (cellEgas0 udemo) udemo.radEnergy
            (cellSrc Pdemo 0 zeroAdv 0) 0 (cellEgas0 udemo) udemo.radEnergy).F_G
          (newtonIterate Pdemo udemo.gasDensity (cellEgas0 udemo) udemo.radEnergy
            (cellSrc Pdemo 0 zeroAdv 0) 0 (cellEgas0 udemo) udemo.radEnergy).F_R →
        (cellNewton Pdemo udemo 0 zeroAdv 0).iters = 0 ∧
        (cellNewton Pdemo udemo 0 zeroAdv 0).Egas = cellEgas0 udemo ∧
        (cellNewton Pdemo udemo 0 zeroAdv 0).Erad = udemo.radEnergy) ∧
      (∀ st : RadState ℚ, AddSourceTermsCell Pdemo udemo 0 zeroAdv 0 = some st →
        residOk (cellEtot0 Pdemo udemo) (cellNewton Pdemo udemo 0 zeroAdv 0).F_G
          (cellNewton Pdemo udemo 0 zeroAdv 0).F_R ∧
        (cellNewton Pdemo udemo 0 zeroAdv 0).Erad > 0 ∧
        (cellNewton Pdemo udemo 0 zeroAdv 0).Egas > 0) ∧
      ((cellNewton Pdemo udemo 0 zeroAdv 0).iters = 200 →
        AddSourceTermsCell Pdemo udemo 0 zeroAdv 0 = none)) :=
  ⟨by norm_num [cellEtot0, cellEgas0, ComputeEintFromEgas, udemo, Pdemo],
    addSourceTerms_newton_control Pdemo udemo 0 zeroAdv 0
      (by norm_num [cellEtot0, cellEgas0, ComputeEintFromEgas, udemo, Pdemo])⟩

/-- C3: after Newton convergence, AddSourceTerms updates each radiation flux
component implicitly in the opacity of the final Newton iterate, increments
each gas momentum component by the negative flux change over c * chat, and
additionally increments the stored gas total energy by the kinetic-energy
change sum over components of vel0 times the momentum change, with vel0
computed from the pre-update momentum and density. -/
theorem addSourceTerms_flux_momentum_update (P : RadProblem ℚ) (u : RadState ℚ)
    (radSrc : ℚ) (advF : Fin 3 → ℚ) (dt : ℚ) (st : RadState ℚ)
    (hE : cellEtot0 P u ≠ 0)
    (hsome : AddSourceTermsCell P u radSrc advF dt = some st) :
    (st.x1RadFlux = (u.x1RadFlux + dt * advF 0) /
        (1 + (u.gasDensity * P.kappaFn u.gasDensity
          (ComputeTgasFromEgas P u.gasDensity (cellNewton P u radSrc advF dt).Egas)) *
          P.c_hat * dt) ∧
      st.x2RadFlux = (u.x2RadFlux + dt * advF 1) /
        (1 + (u.gasDensity * P.kappaFn u.gasDensity
          (ComputeTgasFromEgas P u.gasDensity (cellNewton P u radSrc advF dt).Egas)) *
          P.c_hat * dt) ∧
      st.x3RadFlux = (u.x3RadFlux + dt * advF 2) /
        (1 + (u.gasDensity * P.kappaFn u.gasDensity
          (ComputeTgasFromEgas P u.gasDensity (cellNewton P u radSrc advF dt).Egas)) *
          P.c_hat * dt)) ∧
    (st.x1GasMomentum = u.x1GasMomentum +
        -(st.x1RadFlux - u.x1RadFlux) / (P.c_light * P.c_hat) ∧
      st.x2GasMomentum = u.x2GasMomentum +
        -(st.x2RadFlux - u.x2RadFlux) / (P.c_light * P.c_hat) ∧
      st.x3GasMomentum = u.x3GasMomentum +
        -(st.x3RadFlux - u.x3RadFlux) / (P.c_light * P.c_hat)) ∧
    st.gasEnergy = ComputeEgasFromEint u.gasDensity u.x1GasMomentum
        u.x2GasMomentum u.x3GasMomentum (cellNewton P u radSrc advF dt).Egas +
      ((u.x1GasMomentum / u.gasDensity) *
          (-(st.x1RadFlux - u.x1RadFlux) / (P.c_light * P.c_hat)) +
        (u.x2GasMomentum / u.gasDensity) *
          (-(st.x2RadFlux - u.x2RadFlux) / (P.c_light * P.c_hat)) +
        (u.x3GasMomentum / u.gasDensity) *
          (-(st.x3RadFlux - u.x3RadFlux) / (P.c_light * P.c_hat))) := by
  obtain ⟨⟨hok, _, _⟩, hst⟩ := AddSourceTermsCell_some P u radSrc advF dt st hsome
  have hkap : (cellNewton P u radSrc advF dt).kappa =
      P.kappaFn u.gasDensity
        (ComputeTgasFromEgas P u.gasDensity (cellNewton P u radSrc advF dt).Egas) := by
    simpa using congrArg (fun p => p.1) (cellNewton_coherent P u radSrc advF dt hE hok)
  subst hst
  rw [← hkap]
  exact ⟨⟨rfl, rfl, rfl⟩, ⟨rfl, rfl, rfl⟩, rfl⟩

/-- Witness for C3 at the demo cell with dt = 0. -/
theorem addSourceTerms_flux_momentum_update_witness :
    cellEtot0 Pdemo udemo ≠ 0 ∧
    AddSourceTermsCell Pdemo udemo 0 zeroAdv 0 = some udemo ∧
    udemo.x1RadFlux = (udemo.x1RadFlux + 0 * zeroAdv 0) /
      (1 + (udemo.gasDensity * Pdemo.kappaFn udemo.gasDensity
        (ComputeTgasFromEgas Pdemo udemo.gasDensity
          (cellNewton Pdemo udemo 0 zeroAdv 0).Egas)) * Pdemo.c_hat * 0) :=
  ⟨by norm_num [cellEtot0, cellEgas0, ComputeEintFromEgas, udemo, Pdemo],
    AddSourceTermsCell_demo,
    ((addSourceTerms_flux_momentum_update Pdemo udemo 0 zeroAdv 0 udemo
      (by norm_num [cellEtot0, cellEgas0, ComputeEintFromEgas, udemo, Pdemo])
      AddSourceTermsCell_demo).1).1⟩

/-- C9 counterexample: for the cell sdemo (density 1 below the floor 2,
x-momentum 2), the pressure-floor branch fires, yet the pressure recomputed
from the final state (using the kinetic energy from the unchanged momentum
and the floored density) does not equal the floor pressure, and that kinetic
energy is not preserved: the code computes vsq from the pre-floor density. -/
theorem enforcePressureFloor_counterexample :
    sdemo.density < 2 ∧
    (let out := EnforcePressureFloorCell 2 sdemo
     let Pfl := (out.density / hydrogen_mass_cgs) * boltzmann_constant_cgs * T_floor
     ((sdemo.energy - (1 / 2) * out.density *
         ((sdemo.x1Momentum / sdemo.density) ^ 2 + (sdemo.x2Momentum / sdemo.density) ^ 2 +
           (sdemo.x3Momentum / sdemo.density) ^ 2)) * (gamma_SC - 1) < Pfl) ∧
     (gamma_SC - 1) * (out.energy -
        (out.x1Momentum ^ 2 + out.x2Momentum ^ 2 + out.x3Momentum ^ 2) /
          (2 * out.density)) ≠ Pfl ∧
     out.energy - Pfl / (gamma_SC - 1) ≠
       (out.x1Momentum ^ 2 + out.x2Momentum ^ 2 + out.x3Momentum ^ 2) /
         (2 * out.density)) := by
  refine ⟨by norm_num [sdemo], ?_, ?_, ?_⟩ <;>
    norm_num [EnforcePressureFloorCell, hydrogen_mass_cgs, boltzmann_constant_cgs,
      T_floor, gamma_SC, sdemo]

/-- C9 (amended): EnforcePressureFloor floors the density and leaves all
momentum components unchanged; when the pressure computed from the
kinetic-energy term (1/2) * rho_new * vsq falls below the floor pressure
P_floor = (rho_new / m_H) * k_B * T_floor, the total energy is adjusted so
that the pressure recomputed with THAT kinetic-energy term equals exactly the
floor pressure -- where vsq is built from velocities divided by the pre-floor
density, so the preserved kinetic term is (1/2) * rho_new * (p/rho_old)^2.
When the density was not below the floor the two kinetic energies coincide
and the original claim holds exactly. -/
theorem enforcePressureFloor_behavior (densityFloor : ℚ) (s : HydroState ℚ)
    (hrho : 0 < s.density) :
    (s.density < densityFloor →
      (EnforcePressureFloorCell densityFloor s).density = densityFloor) ∧
    (¬ s.density < densityFloor →
      (EnforcePressureFloorCell densityFloor s).density = s.density) ∧
    (EnforcePressureFloorCell densityFloor s).x1Momentum = s.x1Momentum ∧
    (EnforcePressureFloorCell densityFloor s).x2Momentum = s.x2Momentum ∧
    (EnforcePressureFloorCell densityFloor s).x3Momentum = s.x3Momentum ∧
    (let rho_new := (EnforcePressureFloorCell densityFloor s).density
     let vsq := (s.x1Momentum / s.density) * (s.x1Momentum / s.density) +
       (s.x2Momentum / s.density) * (s.x2Momentum / s.density) +
       (s.x3Momentum / s.density) * (s.x3Momentum / s.density)
     let Pfl := (rho_new / hydrogen_mass_cgs) * boltzmann_constant_cgs * T_floor
     let Pst := (s.energy - (1 / 2) * rho_new * vsq) * (gamma_SC - 1)
     (¬ Pst < Pfl → (EnforcePressureFloorCell densityFloor s).energy = s.energy) ∧
     (Pst < Pfl →
       (EnforcePressureFloorCell densityFloor s).energy =
         Pfl / (gamma_SC - 1) + (1 / 2) * rho_new * vsq ∧
       ((EnforcePressureFloorCell densityFloor s).energy -
         (1 / 2) * rho_new * vsq) * (gamma_SC - 1) = Pfl) ∧
     (densityFloor ≤ s.density → Pst < Pfl →
       (gamma_SC - 1) * ((EnforcePressureFloorCell densityFloor s).energy -
         (s.x1Momentum ^ 2 + s.x2Momentum ^ 2 + s.x3Momentum ^ 2) /
           (2 * rho_new)) = Pfl ∧
       (EnforcePressureFloorCell densityFloor s).energy - Pfl / (gamma_SC - 1) =
         (s.x1Momentum ^ 2 + s.x2Momentum ^ 2 + s.x3Momentum ^ 2) /
           (2 * rho_new))) := by
  have hne : s.density ≠ 0 := ne_of_gt hrho
  have hg : gamma_SC - 1 ≠ 0 := by norm_num [gamma_SC]
  have hK : (1 / 2) * s.density *
      ((s.x1Momentum / s.density) * (s.x1Momentum / s.density) +
        (s.x2Momentum / s.density) * (s.x2Momentum / s.density) +
        (s.x3Momentum / s.density) * (s.x3Momentum / s.density)) =
      (s.x1Momentum ^ 2 + s.x2Momentum ^ 2 + s.x3Momentum ^ 2) /
        (2 * s.density) := by
    field_simp
    ring
  simp only [EnforcePressureFloorCell]
  split_ifs with h1 h2 h2
  · refine ⟨fun _ => rfl, fun h => absurd h1 h, trivial, trivial, trivial, ?_, ?_, ?_⟩
    · intro hc; exact absurd h2 hc
    · intro _
      refine ⟨rfl, ?_⟩
      rw [add_sub_cancel_right]
      exact div_mul_cancel₀ _ hg
    · intro hfl _
      exact absurd h1 (not_lt.mpr hfl)
  · refine ⟨fun _ => rfl, fun h => absurd h1 h, trivial, trivial, trivial,
      fun _ => rfl, ?_, ?_⟩
    · intro hc; exact absurd hc h2
    · intro hfl _
      exact absurd h1 (not_lt.mpr hfl)
  · refine ⟨fun h => absurd h h1, fun _ => rfl, trivial, trivial, trivial, ?_, ?_, ?_⟩
    · intro hc; exact absurd h2 hc
    · intro _
      refine ⟨rfl, ?_⟩
      rw [add_sub_cancel_right]
      exact div_mul_cancel₀ _ hg
    · intro _ _
      rw [← hK]
      constructor
      · rw [add_sub_cancel_right, mul_comm]
        exact div_mul_cancel₀ _ hg
      · rw [add_sub_cancel_left]
  · refine ⟨fun h => absurd h h1, fun _ => rfl, trivial, trivial, trivial,
      fun _ => rfl, ?_, ?_⟩
    · intro hc; exact absurd hc h2
    · intro _ hc; exact absurd hc h2

/-- Witness for C9 (amended) at the cell sdemo with density floor 2. -/
theorem enforcePressureFloor_behavior_witness :
    0 < sdemo.density ∧
    ((sdemo.density < 2 → (EnforcePressureFloorCell 2 sdemo).density = 2) ∧
      (¬ sdemo.density < 2 →
        (EnforcePressureFloorCell 2 sdemo).density = sdemo.density) ∧
      (EnforcePressureFloorCell 2 sdemo).x1Momentum = sdemo.x1Momentum ∧
      (EnforcePressureFloorCell 2 sdemo).x2Momentum = sdemo.x2Momentum ∧
      (EnforcePressureFloorCell 2 sdemo).x3Momentum = sdemo.x3Momentum ∧
      (let rho_new := (EnforcePressureFloorCell 2 sdemo).density
       let vsq := (sdemo.x1Momentum / sdemo.density) * (sdemo.x1Momentum / sdemo.density) +
         (sdemo.x2Momentum / sdemo.density) * (sdemo.x2Momentum / sdemo.density) +
         (sdemo.x3Momentum / sdemo.density) * (sdemo.x3Momentum / sdemo.density)
       let Pfl := (rho_new / hydrogen_mass_cgs) * boltzmann_constant_cgs * T_floor
       let Pst := (sdemo.energy - (1 / 2) * rho_new * vsq) * (gamma_SC - 1)
       (¬ Pst < Pfl → (EnforcePressureFloorCell 2 sdemo).energy = sdemo.energy) ∧
       (Pst < Pfl →
         (EnforcePressureFloorCell 2 sdemo).energy =
           Pfl / (gamma_SC - 1) + (1 / 2) * rho_new * vsq ∧
         ((EnforcePressureFloorCell 2 sdemo).energy -
           (1 / 2) * rho_new * vsq) * (gamma_SC - 1) = Pfl) ∧
       ((2 : ℚ) ≤ sdemo.density → Pst < Pfl →
         (gamma_SC - 1) * ((EnforcePressureFloorCell 2 sdemo).energy -
           (sdemo.x1Momentum ^ 2 + sdemo.x2Momentum ^ 2 + sdemo.x3Momentum ^ 2) /
             (2 * rho_new)) = Pfl ∧
         (EnforcePressureFloorCell 2 sdemo).energy - Pfl / (gamma_SC - 1) =
           (sdemo.x1Momentum ^ 2 + sdemo.x2Momentum ^ 2 + sdemo.x3Momentum ^ 2) /
             (2 * rho_new)))) :=
  ⟨by norm_num [sdemo], enforcePressureFloor_behavior 2 sdemo (by norm_num [sdemo])⟩

/-- C7: for every variable and every cell i inside the loop range,
ReconstructStatesPPM computes the Colella-Woodward estimates
(7/12)(q(i-1)+q(i)) - (1/12)(q(i+1)+q(i-2)) at the left interface and the
corresponding estimate at the right interface, clamps each within the
min/max of the three adjacent cell averages, and then applies the
monotonicity correction: at a local extremum (product of one-sided
differences non-positive) both interface values are replaced by the
MC-limited linear reconstruction a -+ 0.5 * MC(q(i+1)-q(i), q(i)-q(i-1));
otherwise a side whose difference is at least twice the other side's in
magnitude is reset to a - 2*dq_plus resp. a + 2*dq_minus. -/
theorem ppm_reconstruct_cell (q L0 R0 : ℤ → ℚ) (first second i : ℤ)
    (h1 : first ≤ i) (h2 : i < second) :
    (let a := q i
     let lo := min (q (i - 1)) (min (q i) (q (i + 1)))
     let hi := max (q (i - 1)) (max (q i) (q (i + 1)))
     let a_minus := clamp ((7 / 12) * (q (i - 1) + q i) -
       (1 / 12) * (q (i + 1) + q (i - 2))) lo hi
     let a_plus := clamp ((7 / 12) * (q i + q (i + 1)) -
       (1 / 12) * (q (i + 2) + q (i - 1))) lo hi
     let dq_minus := a - a_minus
     let dq_plus := a_plus - a
     if dq_plus * dq_minus ≤ 0 then
       (ReconstructStatesPPM q L0 R0 first second).2 i =
         a - (1 / 2) * MC (q (i + 1) - q i) (q i - q (i - 1)) ∧
       (ReconstructStatesPPM q L0 R0 first second).1 (i + 1) =
         a + (1 / 2) * MC (q (i + 1) - q i) (q i - q (i - 1))
     else
       (ReconstructStatesPPM q L0 R0 first second).2 i =
         (if |dq_minus| ≥ 2 * |dq_plus| then a - 2 * dq_plus else a_minus) ∧
       (ReconstructStatesPPM q L0 R0 first second).1 (i + 1) =
         (if |dq_plus| ≥ 2 * |dq_minus| then a + 2 * dq_minus else a_plus)) := by
  have e1 : i + 1 - 1 = i := by ring
  have ham : interfaceCW q i =
      (7 / 12) * (q (i - 1) + q i) - (1 / 12) * (q (i + 1) + q (i - 2)) := by
    rw [interfaceCW]; ring
  have hap : interfaceCW q (i + 1) =
      (7 / 12) * (q i + q (i + 1)) - (1 / 12) * (q (i + 2) + q (i - 1)) := by
    rw [interfaceCW, e1, show i + 1 - 2 = i - 1 from by ring,
      show i + 1 + 1 = i + 2 from by ring]
    ring
  have hA : first ≤ i ∧ i < second := ⟨h1, h2⟩
  have hB : first ≤ i ∧ i ≤ second := ⟨h1, le_of_lt h2⟩
  have hC : first ≤ i + 1 ∧ i + 1 ≤ second := ⟨by omega, by omega⟩
  have hR2 : (ppmPass2 q (ppmPass1 q L0 R0 first second).1
        (ppmPass1 q L0 R0 first second).2 first second).2 i =
      clamp ((7 / 12) * (q (i - 1) + q i) - (1 / 12) * (q (i + 1) + q (i - 2)))
        (min (q (i - 1)) (min (q i) (q (i + 1))))
        (max (q (i - 1)) (max (q i) (q (i + 1)))) := by
    simp only [ppmPass2, ppmPass1, minmax3lo, minmax3hi]
    rw [if_pos hA, if_pos hB, ham]
  have hL2 : (ppmPass2 q (ppmPass1 q L0 R0 first second).1
        (ppmPass1 q L0 R0 first second).2 first second).1 (i + 1) =
      clamp ((7 / 12) * (q i + q (i + 1)) - (1 / 12) * (q (i + 2) + q (i - 1)))
        (min (q (i - 1)) (min (q i) (q (i + 1))))
        (max (q (i - 1)) (max (q i) (q (i + 1)))) := by
    simp only [ppmPass2, ppmPass1, minmax3lo, minmax3hi, e1]
    rw [if_pos hA, if_pos hC, hap]
  have hfinR : (ReconstructStatesPPM q L0 R0 first second).2 i =
      (ppmMono q (ppmPass2 q (ppmPass1 q L0 R0 first second).1
        (ppmPass1 q L0 R0 first second).2 first second).1
        (ppmPass2 q (ppmPass1 q L0 R0 first second).1
          (ppmPass1 q L0 R0 first second).2 first second).2 i).1 := by
    simp only [ReconstructStatesPPM, ppmPass3]
    rw [if_pos hA]
  have hfinL : (ReconstructStatesPPM q L0 R0 first second).1 (i + 1) =
      (ppmMono q (ppmPass2 q (ppmPass1 q L0 R0 first second).1
        (ppmPass1 q L0 R0 first second).2 first second).1
        (ppmPass2 q (ppmPass1 q L0 R0 first second).1
          (ppmPass1 q L0 R0 first second).2 first second).2 i).2 := by
    simp only [ReconstructStatesPPM, ppmPass3, e1]
    rw [if_pos hA]
  simp only [ppmMono] at hfinR hfinL
  rw [hR2, hL2] at hfinR hfinL
  set AM := clamp ((7 / 12) * (q (i - 1) + q i) - (1 / 12) * (q (i + 1) + q (i - 2)))
    (min (q (i - 1)) (min (q i) (q (i + 1))))
    (max (q (i - 1)) (max (q i) (q (i + 1)))) with hAMdef
  set AP := clamp ((7 / 12) * (q i + q (i + 1)) - (1 / 12) * (q (i + 2) + q (i - 1)))
    (min (q (i - 1)) (min (q i) (q (i + 1))))
    (max (q (i - 1)) (max (q i) (q (i + 1)))) with hAPdef
  by_cases hc : (AP - q i) * (q i - AM) ≤ 0
  · rw [if_pos hc] at hfinR hfinL
    rw [if_pos hc]
    exact ⟨hfinR, hfinL⟩
  · rw [if_neg hc] at hfinR hfinL
    rw [if_neg hc]
    exact ⟨hfinR, hfinL⟩

/-- Witness for C7 on the linear profile qdemo over the range [0, 3) at cell 1. -/
theorem ppm_reconstruct_cell_witness :
    (0 : ℤ) ≤ 1 ∧ (1 : ℤ) < 3 ∧
    (let a := qdemo 1
     let lo := min (qdemo 0) (min (qdemo 1) (qdemo 2))
     let hi := max (qdemo 0) (max (qdemo 1) (qdemo 2))
     let a_minus := clamp ((7 / 12) * (qdemo 0 + qdemo 1) -
       (1 / 12) * (qdemo 2 + qdemo (-1))) lo hi
     let a_plus := clamp ((7 / 12) * (qdemo 1 + qdemo 2) -
       (1 / 12) * (qdemo 3 + qdemo 0)) lo hi
     let dq_minus := a - a_minus
     let dq_plus := a_plus - a
     if dq_plus * dq_minus ≤ 0 then
       (ReconstructStatesPPM qdemo zfun zfun 0 3).2 1 =
         a - (1 / 2) * MC (qdemo 2 - qdemo 1) (qdemo 1 - qdemo 0) ∧
       (ReconstructStatesPPM qdemo zfun zfun 0 3).1 2 =
         a + (1 / 2) * MC (qdemo 2 - qdemo 1) (qdemo 1 - qdemo 0)
     else
       (ReconstructStatesPPM qdemo zfun zfun 0 3).2 1 =
         (if |dq_minus| ≥ 2 * |dq_plus| then a - 2 * dq_plus else a_minus) ∧
       (ReconstructStatesPPM qdemo zfun zfun 0 3).1 2 =
         (if |dq_plus| ≥ 2 * |dq_minus| then a + 2 * dq_minus else a_plus)) := by
  refine ⟨by norm_num, by norm_num, ?_⟩
  have h := ppm_reconstruct_cell qdemo zfun zfun 0 3 1 (by norm_num) (by norm_num)
  simpa [qdemo] using h

/-- The clamp to [0, 1] inside ComputeEddingtonFactor lands in [0, 1]. -/
theorem clampR_mem (f : ℝ) : 0 ≤ clampR f 0 1 ∧ clampR f 0 1 ≤ 1 := by
  rw [clampR]
  split_ifs with h1 h2
  · norm_num
  · norm_num
  · constructor <;> linarith [not_lt.mp h1, not_lt.mp h2]

/-- The Levermore closure formula lies in [1/3, 1] for any g in [0, 1]. -/
theorem eddington_bounds_aux (g : ℝ) (h0 : 0 ≤ g) (h1 : g ≤ 1) :
    1 / 3 ≤ (3 + 4 * (g * g)) / (5 + 2 * Real.sqrt (4 - 3 * (g * g))) ∧
    (3 + 4 * (g * g)) / (5 + 2 * Real.sqrt (4 - 3 * (g * g))) ≤ 1 := by
  have hg2 : g * g ≤ 1 := mul_le_one₀ h1 h0 h1
  have hg0 : 0 ≤ g * g := mul_self_nonneg g
  have hnn : (0 : ℝ) ≤ 4 - 3 * (g * g) := by linarith
  have hs0 : 0 ≤ Real.sqrt (4 - 3 * (g * g)) := Real.sqrt_nonneg _
  have hssq : Real.sqrt (4 - 3 * (g * g)) ^ 2 = 4 - 3 * (g * g) := Real.sq_sqrt hnn
  have hs2 : Real.sqrt (4 - 3 * (g * g)) ≤ 2 := by
    rw [show (2 : ℝ) = Real.sqrt 4 by
      rw [show (4 : ℝ) = 2 ^ 2 by norm_num, Real.sqrt_sq (by norm_num)]]
    exact Real.sqrt_le_sqrt (by linarith)
  have hden : 0 < 5 + 2 * Real.sqrt (4 - 3 * (g * g)) := by linarith
  constructor
  · rw [div_le_div_iff₀ (by norm_num) hden]
    nlinarith
  · rw [div_le_one hden]
    nlinarith [hssq, hs0, sq_nonneg (Real.sqrt (4 - 3 * (g * g)) - (2 * (g * g) - 1))]

/-- Range invariant of the Eddington factor, shared by the flux kernels. -/
theorem eddington_factor_bounds (f : ℝ) :
    1 / 3 ≤ ComputeEddingtonFactor f ∧ ComputeEddingtonFactor f ≤ 1 := by
  rw [ComputeEddingtonFactor]
  exact eddington_bounds_aux (clampR f 0 1) (clampR_mem f).1 (clampR_mem f).2

/-- C4: for every real input f, ComputeEddingtonFactor returns
(3 + 4 g^2) / (5 + 2 sqrt(4 - 3 g^2)) with g = clamp(f, 0, 1), and the
returned value always lies in [1/3, 1], the range asserted at each flux
evaluation. -/
theorem eddington_factor_formula_and_range (f_in : ℝ) :
    ComputeEddingtonFactor f_in =
      (3 + 4 * (clampR f_in 0 1 * clampR f_in 0 1)) /
        (5 + 2 * Real.sqrt (4 - 3 * (clampR f_in 0 1 * clampR f_in 0 1))) ∧
    1 / 3 ≤ ComputeEddingtonFactor f_in ∧ ComputeEddingtonFactor f_in ≤ 1 :=
  ⟨rfl, eddington_factor_bounds f_in⟩

/-- The squared components of the flux direction vector are at most 1. -/
theorem nvec_sq_le_one (fx fy fz : ℝ) (k : Fin 3) :
    nvec fx fy fz k * nvec fx fy fz k ≤ 1 := by
  rw [nvec]
  split_ifs with h
  · have hsum : (0 : ℝ) ≤ fx * fx + fy * fy + fz * fz := by
      nlinarith [mul_self_nonneg fx, mul_self_nonneg fy, mul_self_nonneg fz]
    have hf2 : fluxNorm fx fy fz * fluxNorm fx fy fz = fx * fx + fy * fy + fz * fz :=
      Real.mul_self_sqrt hsum
    have hfF : 0 < fluxNorm fx fy fz * fluxNorm fx fy fz := mul_pos h h
    have hcomp : (![fx, fy, fz]) k * (![fx, fy, fz]) k ≤ fx * fx + fy * fy + fz * fz := by
      fin_cases k <;>
        · simp
          nlinarith [mul_self_nonneg fx, mul_self_nonneg fy, mul_self_nonneg fz]
    rw [div_mul_div_comm, div_le_one hfF]
    calc (![fx, fy, fz]) k * (![fx, fy, fz]) k
        ≤ fx * fx + fy * fy + fz * fz := hcomp
      _ = fluxNorm fx fy fz * fluxNorm fx fy fz := hf2.symm
  · norm_num

/-- The face-normal Eddington tensor component lies in [0, 1]. -/
theorem Tnormal_mem (fx fy fz : ℝ) (d : Fin 3) :
    0 ≤ Tnormal fx fy fz d ∧ Tnormal fx fy fz d ≤ 1 := by
  obtain ⟨hlo, hhi⟩ := eddington_factor_bounds (fluxNorm fx fy fz)
  have hn0 : 0 ≤ nvec fx fy fz d * nvec fx fy fz d := mul_self_nonneg _
  have hn1 := nvec_sq_le_one fx fy fz d
  rw [Tnormal]
  constructor
  · nlinarith
  · nlinarith

/-- One-sided wave-speed bounds given a Tnormal value in [0, 1]. -/
theorem wavespeed_bounds_aux (chat Tn : ℝ) (hchat : 0 < chat)
    (_h0 : 0 ≤ Tn) (h1 : Tn ≤ 1) :
    S_L_of chat Tn ≤ -0.1 * chat ∧ -chat ≤ S_L_of chat Tn ∧
    0.1 * chat ≤ S_R_of chat Tn ∧ S_R_of chat Tn ≤ chat := by
  have hs1 : Real.sqrt Tn ≤ 1 := by
    rw [show (1 : ℝ) = Real.sqrt 1 from (Real.sqrt_one).symm]
    exact Real.sqrt_le_sqrt h1
  have hs0 : 0 ≤ Real.sqrt Tn := Real.sqrt_nonneg _
  have hmul : chat * Real.sqrt Tn ≤ chat := by nlinarith
  refine ⟨min_le_left _ _, le_min (by linarith) (by linarith), le_max_left _ _, ?_⟩
  exact max_le (by linarith) hmul

/-- C10: for chat > 0 and any reduced-flux components on the two sides of a
face, the face-normal Eddington components lie in [0, 1], hence the HLL wave
speeds satisfy S_L <= -0.1 chat, S_R >= 0.1 chat, abs S_L <= chat,
abs S_R <= chat, so S_R - S_L >= 0.2 chat > 0: every division by S_R - S_L in
the HLL flux is well defined, and the asserted wave-speed bounds never fire. -/
theorem hll_wavespeeds_well_defined (chat fxL fyL fzL fxR fyR fzR : ℝ) (d : Fin 3)
    (hchat : 0 < chat) :
    (0 ≤ Tnormal fxL fyL fzL d ∧ Tnormal fxL fyL fzL d ≤ 1) ∧
    (0 ≤ Tnormal fxR fyR fzR d ∧ Tnormal fxR fyR fzR d ≤ 1) ∧
    S_L_of chat (Tnormal fxL fyL fzL d) ≤ -0.1 * chat ∧
    |S_L_of chat (Tnormal fxL fyL fzL d)| ≤ chat ∧
    0.1 * chat ≤ S_R_of chat (Tnormal fxR fyR fzR d) ∧
    |S_R_of chat (Tnormal fxR fyR fzR d)| ≤ chat ∧
    0.2 * chat ≤
      S_R_of chat (Tnormal fxR fyR fzR d) - S_L_of chat (Tnormal fxL fyL fzL d) ∧
    0 < S_R_of chat (Tnormal fxR fyR fzR d) - S_L_of chat (Tnormal fxL fyL fzL d) := by
  obtain ⟨hL0, hL1⟩ := Tnormal_mem fxL fyL fzL d
  obtain ⟨hR0, hR1⟩ := Tnormal_mem fxR fyR fzR d
  obtain ⟨ha, hb, _, _⟩ := wavespeed_bounds_aux chat _ hchat hL0 hL1
  obtain ⟨_, _, hc', hd'⟩ := wavespeed_bounds_aux chat _ hchat hR0 hR1
  refine ⟨⟨hL0, hL1⟩, ⟨hR0, hR1⟩, ha, ?_, hc', ?_, ?_, ?_⟩
  · rw [abs_le]
    exact ⟨hb, by linarith⟩
  · rw [abs_le]
    exact ⟨by linarith, hd'⟩
  · linarith
  · linarith

/-- Witness for C10 at chat = 1, zero reduced fluxes, the x1 direction. -/
theorem hll_wavespeeds_well_defined_witness :
    (0 : ℝ) < 1 ∧
    ((0 ≤ Tnormal 0 0 0 0 ∧ Tnormal 0 0 0 0 ≤ 1) ∧
      (0 ≤ Tnormal 0 0 0 0 ∧ Tnormal 0 0 0 0 ≤ 1) ∧
      S_L_of 1 (Tnormal 0 0 0 0) ≤ -0.1 * 1 ∧
      |S_L_of 1 (Tnormal 0 0 0 0)| ≤ 1 ∧
      0.1 * 1 ≤ S_R_of 1 (Tnormal 0 0 0 0) ∧
      |S_R_of 1 (Tnormal 0 0 0 0)| ≤ 1 ∧
      0.2 * 1 ≤ S_R_of 1 (Tnormal 0 0 0 0) - S_L_of 1 (Tnormal 0 0 0 0) ∧
      0 < S_R_of 1 (Tnormal 0 0 0 0) - S_L_of 1 (Tnormal 0 0 0 0)) :=
  ⟨by norm_num, hll_wavespeeds_well_defined 1 0 0 0 0 0 0 0 (by norm_num)⟩

/-- C6: the interface optical depth is the harmonic mean of the one-sided
optical depths; the diffusive flux is the HLL flux with epsilon = (1,1,1,1);
the primary flux differs from it only in the (S_R S_L / (S_R - S_L))
(U_R - U_L) term, scaled componentwise by (S_corr^2, S_corr, S_corr, S_corr)
with S_corr = min(1, 1/tau); and whenever 0 < tau <= 1 the two fluxes agree
in every component. -/
theorem hll_asymptotic_correction (P : RadProblem ℝ) (cL cR : RadState ℝ)
    (dl chat Tn_L Tn_R : ℝ) (F_L F_R U_L U_R : Fin 4 → ℝ) :
    (let tau_L := dl * cL.gasDensity * P.kappaFn cL.gasDensity
       (ComputeTgasFromEgas P cL.gasDensity (ComputeEintFromEgas cL.gasDensity
         cL.x1GasMomentum cL.x2GasMomentum cL.x3GasMomentum cL.gasEnergy))
     let tau_R := dl * cR.gasDensity * P.kappaFn cR.gasDensity
       (ComputeTgasFromEgas P cR.gasDensity (ComputeEintFromEgas cR.gasDensity
         cR.x1GasMomentum cR.x2GasMomentum cR.x3GasMomentum cR.gasEnergy))
     ComputeCellOpticalDepth P cL cR dl = (2 * tau_L * tau_R) / (tau_L + tau_R)) ∧
    (faceFluxes chat Tn_L Tn_R F_L F_R U_L U_R
        (ComputeCellOpticalDepth P cL cR dl)).2 =
      hllFlux (S_L_of chat Tn_L) (S_R_of chat Tn_R) F_L F_R U_L U_R (fun _ => 1) ∧
    (∀ n, (faceFluxes chat Tn_L Tn_R F_L F_R U_L U_R
          (ComputeCellOpticalDepth P cL cR dl)).1 n -
        (faceFluxes chat Tn_L Tn_R F_L F_R U_L U_R
          (ComputeCellOpticalDepth P cL cR dl)).2 n =
      (epsilonVec (S_corr_of (ComputeCellOpticalDepth P cL cR dl)) n - 1) *
        (S_R_of chat Tn_R * S_L_of chat Tn_L /
          (S_R_of chat Tn_R - S_L_of chat Tn_L)) * (U_R n - U_L n)) ∧
    (0 < ComputeCellOpticalDepth P cL cR dl →
      ComputeCellOpticalDepth P cL cR dl ≤ 1 →
      ∀ n, (faceFluxes chat Tn_L Tn_R F_L F_R U_L U_R
          (ComputeCellOpticalDepth P cL cR dl)).1 n =
        (faceFluxes chat Tn_L Tn_R F_L F_R U_L U_R
          (ComputeCellOpticalDepth P cL cR dl)).2 n) := by
  refine ⟨rfl, rfl, ?_, ?_⟩
  · intro n
    simp only [faceFluxes, hllFlux]
    ring
  · intro h0 h1 n
    have hS : S_corr_of (ComputeCellOpticalDepth P cL cR dl) = 1 := by
      rw [S_corr_of]
      exact min_eq_left (one_le_one_div h0 h1)
    have heps : epsilonVec (S_corr_of (ComputeCellOpticalDepth P cL cR dl)) n = 1 := by
      rw [hS]
      fin_cases n <;> norm_num [epsilonVec]
    simp only [faceFluxes, hllFlux, heps]

/-- Witness for C6 at the demo problem: unit cells on both sides give
tau_L = tau_R = 1 and harmonic mean tau = 1, inside (0, 1]. -/
theorem hll_asymptotic_correction_witness :
    0 < ComputeCellOpticalDepth Prdemo urdemo urdemo 1 ∧
    ComputeCellOpticalDepth Prdemo urdemo urdemo 1 ≤ 1 ∧
    (∀ n, (faceFluxes 1 0 0 (fun _ => 0) (fun _ => 0) (fun _ => 0) (fun _ => 0)
        (ComputeCellOpticalDepth Prdemo urdemo urdemo 1)).1 n =
      (faceFluxes 1 0 0 (fun _ => 0) (fun _ => 0) (fun _ => 0) (fun _ => 0)
        (ComputeCellOpticalDepth Prdemo urdemo urdemo 1)).2 n) := by
  have htau : ComputeCellOpticalDepth Prdemo urdemo urdemo 1 = 1 := by
    norm_num [ComputeCellOpticalDepth, ComputeTgasFromEgas, ComputeEintFromEgas,
      Prdemo, urdemo]
  refine ⟨by rw [htau]; norm_num, by rw [htau], ?_⟩
  exact (hll_asymptotic_correction Prdemo urdemo urdemo 1 1 0 0
    (fun _ => 0) (fun _ => 0) (fun _ => 0) (fun _ => 0)).2.2.2
    (by rw [htau]; norm_num) (by rw [htau])

/-- C5: whenever the reconstructed interface pair is non-physical (not both
radiation energies positive with reduced-flux magnitudes below 1), the
gathered face states are exactly the piecewise-constant values from the two
adjacent cell-centered conserved states, with reduced fluxes re-derived by
dividing by c * E_r; the face flux is then computed from these substituted
states, and no error is raised. -/
theorem computeFluxes_fallback (c eradL0 fxL0 fyL0 fzL0 eradR0 fxR0 fyR0 fzR0 : ℝ)
    (cL cR : RadState ℝ)
    (hbad : ¬((eradL0 > 0) ∧ (eradR0 > 0) ∧ (fluxNorm fxL0 fyL0 fzL0 < 1) ∧
      (fluxNorm fxR0 fyR0 fzR0 < 1))) :
    gatherFaceStates c eradL0 fxL0 fyL0 fzL0 eradR0 fxR0 fyR0 fzR0 cL cR =
      { erad_L := cL.radEnergy
        erad_R := cR.radEnergy
        Fx_L := cL.x1RadFlux
        Fx_R := cR.x1RadFlux
        Fy_L := cL.x2RadFlux
        Fy_R := cR.x2RadFlux
        Fz_L := cL.x3RadFlux
        Fz_R := cR.x3RadFlux
        fx_L := cL.x1RadFlux / (c * cL.radEnergy)
        fx_R := cR.x1RadFlux / (c * cR.radEnergy)
        fy_L := cL.x2RadFlux / (c * cL.radEnergy)
        fy_R := cR.x2RadFlux / (c * cR.radEnergy)
        fz_L := cL.x3RadFlux / (c * cL.radEnergy)
        fz_R := cR.x3RadFlux / (c * cR.radEnergy)
        f_L := fluxNorm (cL.x1RadFlux / (c * cL.radEnergy))
          (cL.x2RadFlux / (c * cL.radEnergy)) (cL.x3RadFlux / (c * cL.radEnergy))
        f_R := fluxNorm (cR.x1RadFlux / (c * cR.radEnergy))
          (cR.x2RadFlux / (c * cR.radEnergy)) (cR.x3RadFlux / (c * cR.radEnergy)) } := by
  simp only [gatherFaceStates]
  rw [if_pos hbad]

/-- Witness for C5: a reconstructed left state with negative radiation energy
triggers the per-face fallback. -/
theorem computeFluxes_fallback_witness :
    ¬((((-1 : ℝ)) > 0) ∧ ((1 : ℝ) > 0) ∧ (fluxNorm 0 0 0 < 1) ∧
      (fluxNorm 0 0 0 < 1)) ∧
    gatherFaceStates 2 (-1) 0 0 0 1 0 0 0 urdemo urdemo =
      { erad_L := urdemo.radEnergy
        erad_R := urdemo.radEnergy
        Fx_L := urdemo.x1RadFlux
        Fx_R := urdemo.x1RadFlux
        Fy_L := urdemo.x2RadFlux
        Fy_R := urdemo.x2RadFlux
        Fz_L := urdemo.x3RadFlux
        Fz_R := urdemo.x3RadFlux
        fx_L := urdemo.x1RadFlux / (2 * urdemo.radEnergy)
        fx_R := urdemo.x1RadFlux / (2 * urdemo.radEnergy)
        fy_L := urdemo.x2RadFlux / (2 * urdemo.radEnergy)
        fy_R := urdemo.x2RadFlux / (2 * urdemo.radEnergy)
        fz_L := urdemo.x3RadFlux / (2 * urdemo.radEnergy)
        fz_R := urdemo.x3RadFlux / (2 * urdemo.radEnergy)
        f_L := fluxNorm (urdemo.x1RadFlux / (2 * urdemo.radEnergy))
          (urdemo.x2RadFlux / (2 * urdemo.radEnergy))
          (urdemo.x3RadFlux / (2 * urdemo.radEnergy))
        f_R := fluxNorm (urdemo.x1RadFlux / (2 * urdemo.radEnergy))
          (urdemo.x2RadFlux / (2 * urdemo.radEnergy))
          (urdemo.x3RadFlux / (2 * urdemo.radEnergy)) } :=
  ⟨fun h => absurd h.1 (by norm_num),
    computeFluxes_fallback 2 (-1) 0 0 0 1 0 0 0 urdemo urdemo
      (fun h => absurd h.1 (by norm_num))⟩

/-- C8 (code-bug evidence): RadSystem::isStateValid receives the 4-element
hyperbolic state array (nvarHyperbolic_ = 4) but indexes it with the absolute
consVarIndex values radEnergy_index = 5 through x3RadFlux_index = 8: every
one of its four reads is out of bounds for a 4-element array (in C++ this is
undefined behavior), whereas nearby code (e.g. ComputeFluxes stores) uses the
offset index radEnergy_index - nstartHyperbolic_. -/
theorem isStateValid_indices_out_of_bounds (a b c d : ℝ) :
    nvarHyperbolic ≤ radEnergy_index ∧
    ([a, b, c, d] : List ℝ).length = nvarHyperbolic ∧
    ([a, b, c, d] : List ℝ).get? radEnergy_index = none ∧
    ([a, b, c, d] : List ℝ).get? x1RadFlux_index = none ∧
    ([a, b, c, d] : List ℝ).get? x2RadFlux_index = none ∧
    ([a, b, c, d] : List ℝ).get? x3RadFlux_index = none :=
  ⟨by norm_num [nvarHyperbolic, radEnergy_index], rfl, rfl, rfl, rfl, rfl⟩

end Quokka
